import Mathlib

/-!
# Verification of the ExCrawler crawl-and-aggregate pipeline

A shallow embedding, in Lean 4, of `excrawler.py` (a Python 2 script that
crawls per-shot XML descriptors of a show, extracts "Object" records with
version metadata, filters them, prints a report and optionally persists rows
into a sqlite table), together with theorems checking the natural-language
specification against the embedded code.

Modelling conventions:
* Python dictionaries are association lists `List (String × PyVal)`;
  `dict.get k` is `dictGet`, returning `PyVal.none` for a missing key,
  exactly as Python's `dict.get`.
* `minidom` element nodes are modelled by `XmlNode`: the node's own
  attributes plus the attribute sets of its child nodes
  (`getAttribute` returns `""` for a missing attribute, as minidom does);
  the code only ever reads `childNodes[0]`'s attributes.
* Python exceptions that are caught in the source become `Option`-valued
  branches; an exception that would propagate uncaught to the top level
  becomes `Option.none` threaded out of the run.
* `ThreadPool.map` is `List.map`: `multiprocessing.pool.ThreadPool.map`
  returns results in input order regardless of completion order.
* Python 2 `sorted` is a stable sort; a stable sort's output is uniquely
  determined by the (total, transitive) comparison, so it is embedded as
  the structurally recursive stable `List.insertionSort`, with the
  Python 2 inter-type ordering on the key values that actually occur
  (`None` below numbers below byte strings).
* The filesystem is an environment value: the result of `os.listdir` on
  the show directory, and for each shot the parsed list of `Object`
  elements of `<shot>/<shot>.xml` (`Option.none` = unreadable/malformed).
-/

/-- A Python runtime value, restricted to the types the script manipulates. -/
inductive PyVal where
  | str : String → PyVal
  | int : Int → PyVal
  | bool : Bool → PyVal
  | none : PyVal
deriving DecidableEq, Repr

/-- A Python dictionary, as an association list (first binding wins). -/
abbrev PyDict := List (String × PyVal)

/-- `d.get(k)`: Python's `dict.get`, returning `None` for a missing key. -/
def dictGet (d : PyDict) (k : String) : PyVal :=
  match d.lookup k with
  | some v => v
  | Option.none => PyVal.none

/-- `d.update({k: v})`: bind `k` to `v` (the new binding shadows any old one;
lookups only ever go through `dictGet`, so shadowing is a faithful model). -/
def dictUpdate (d : PyDict) (k : String) (v : PyVal) : PyDict :=
  (k, v) :: d

/-- Python 2 `str()` of a value, as used by the `"%s" % v` interpolations. -/
def pyStr : PyVal → String
  | PyVal.str s => s
  | PyVal.int n => toString n
  | PyVal.bool true => "True"
  | PyVal.bool false => "False"
  | PyVal.none => "None"

/-- Python truthiness of a value (`if item.get('ood'):`). -/
def pyTruthy : PyVal → Bool
  | PyVal.str s => s ≠ ""
  | PyVal.int n => n ≠ 0
  | PyVal.bool b => b
  | PyVal.none => false

/-- `needle` occurs as a contiguous run inside `hay` (character lists). -/
def charsInfix (needle : List Char) : List Char → Bool
  | [] => needle.isEmpty
  | c :: rest => needle.isPrefixOf (c :: rest) || charsInfix needle rest

/-- Python's `needle in hay` on strings: substring containment. -/
def pyInStr (needle hay : String) : Bool :=
  charsInfix needle.data hay.data

/-- Python 2 `str.lower()` (ASCII-only lowering, as for byte strings). -/
def pyLower (s : String) : String :=
  String.mk (s.data.map Char.toLower)

/-- Helper for `pySplit`: accumulate the current word (reversed) while
scanning the character list. -/
def wordsAux : List Char → List Char → List String
  | [], acc => if acc.isEmpty then [] else [String.mk acc.reverse]
  | c :: rest, acc =>
    if c.isWhitespace then
      if acc.isEmpty then wordsAux rest []
      else String.mk acc.reverse :: wordsAux rest []
    else wordsAux rest (c :: acc)

/-- Python `str.split()` with no argument: split on whitespace runs,
dropping empty pieces. -/
def pySplit (s : String) : List String :=
  wordsAux s.data []

/-- Value of a digit string, `Option.none` if empty or not all digits. -/
def digitsVal : List Char → Option Nat
  | [] => Option.none
  | [c] => if c.isDigit then some (c.toNat - '0'.toNat) else Option.none
  | c :: rest =>
    if c.isDigit then
      (digitsVal rest).map (fun n => (c.toNat - '0'.toNat) * 10 ^ rest.length + n)
    else Option.none

/-- Python 2 `int(s)`: optional surrounding whitespace, optional sign, a
nonempty run of decimal digits; anything else raises `ValueError`
(modelled as `Option.none`). -/
def pyInt (s : String) : Option Int :=
  let cs := (s.data.dropWhile Char.isWhitespace).reverse.dropWhile Char.isWhitespace
  match cs.reverse with
  | '-' :: rest => (digitsVal rest).map (fun n => -(n : Int))
  | '+' :: rest => (digitsVal rest).map (fun n => (n : Int))
  | rest => (digitsVal rest).map (fun n => (n : Int))

/-- A `minidom` element node as the script consumes it: its own attribute
list, and the attribute lists of its child nodes (the script only reads
`childNodes[0]`). -/
structure XmlNode where
  attrs : List (String × String)
  childNodes : List (List (String × String))
deriving DecidableEq, Repr

/-- `node.getAttribute(a)`: minidom returns `""` when the attribute is
absent (it does not raise). -/
def getAttribute (attrs : List (String × String)) (a : String) : String :=
  match attrs.lookup a with
  | some v => v
  | Option.none => ""

/-! ## The orderings used by Python 2 `sorted` in this script -/

/-- Byte-wise (here: character-wise lexicographic) comparison of Python 2
strings, used by `sorted(self.shotList)`. -/
def shotLe (a b : String) : Prop := a.data ≤ b.data

instance : DecidableRel shotLe :=
  fun a b => (inferInstance : Decidable (a.data ≤ b.data))

instance : IsTotal String shotLe := ⟨fun a b => le_total a.data b.data⟩

instance : IsTrans String shotLe := ⟨fun _ _ _ => le_trans⟩

/-- Numeric value of a Python number (`bool` is an `int` subtype in Python). -/
def pyNumVal : PyVal → Int
  | PyVal.int n => n
  | PyVal.bool b => if b then 1 else 0
  | _ => 0

/-- The Python 2 inter-type `<=` on the sort-key values the script can
produce (`None` is below everything, numbers are below strings, strings
compare byte-wise). -/
def pyKeyLeB : PyVal → PyVal → Bool
  | PyVal.none, _ => true
  | _, PyVal.none => false
  | PyVal.str x, PyVal.str y => decide (x.data ≤ y.data)
  | PyVal.str _, _ => false
  | _, PyVal.str _ => true
  | a, b => decide (pyNumVal a ≤ pyNumVal b)

/-- Propositional form of `pyKeyLeB`. -/
def pyKeyLe (a b : PyVal) : Prop := pyKeyLeB a b = true

instance : DecidableRel pyKeyLe :=
  fun a b => instDecidableEqBool (pyKeyLeB a b) true

/-- Comparison of records by their `name` key, the key function of
`sorted(objects, key=lambda k: k.get('name'))`. -/
def nameLe (a b : PyDict) : Prop :=
  pyKeyLe (dictGet a "name") (dictGet b "name")

instance : DecidableRel nameLe :=
  fun a b => (inferInstance : Decidable (pyKeyLe (dictGet a "name") (dictGet b "name")))

theorem pyKeyLeB_total (a b : PyVal) : pyKeyLeB a b = true ∨ pyKeyLeB b a = true := by
  cases a <;> cases b <;> simp [pyKeyLeB] <;> exact le_total ..

theorem pyKeyLeB_trans {a b c : PyVal} (h1 : pyKeyLeB a b = true)
    (h2 : pyKeyLeB b c = true) : pyKeyLeB a c = true := by
  cases a <;> cases b <;> cases c <;> simp_all [pyKeyLeB] <;> exact le_trans h1 h2

theorem pyKeyLeB_antisymm_str {x y : String}
    (h1 : pyKeyLeB (PyVal.str x) (PyVal.str y) = true)
    (h2 : pyKeyLeB (PyVal.str y) (PyVal.str x) = true) : x = y := by
  simp [pyKeyLeB] at h1 h2
  have hd := le_antisymm h1 h2
  cases x
  cases y
  exact congrArg String.mk hd

instance : IsTotal PyDict nameLe :=
  ⟨fun a b => pyKeyLeB_total (dictGet a "name") (dictGet b "name")⟩

instance : IsTrans PyDict nameLe :=
  ⟨fun _ _ _ h1 h2 => pyKeyLeB_trans h1 h2⟩

/-! ## The persistent store (`class sqliteDB`) -/

namespace sqliteDB

/-- One row of the `entities` table.  Every value is interpolated into the
SQL text with `"%s" % v`, i.e. as the Python `str()` of the value. -/
structure Row where
  shot : String
  name : String
  objProd : String
  shotVer : String
  objVer : String
  objHighest : String
  ood : String
  mayafile : String
deriving DecidableEq, Repr

/-- The state of the sqlite store: whether the fixed `entities` schema has
been created, and the rows of the table. -/
structure DBState where
  schemaCreated : Bool
  rows : List Row
deriving DecidableEq, Repr

/-- `sqliteDB.dbConnect`: if the database file does not exist, connecting
creates it and the fixed `entities` schema; otherwise the existing store
is returned untouched (no re-creation, no truncation).  `Option.none`
models an absent file. -/
def dbConnect (file : Option DBState) : DBState :=
  match file with
  | Option.none => ⟨true, []⟩
  | some db => db

/-- The row built by `sqliteDB.insert` from a record dictionary: each
column is `char.get(key)` rendered through `"%s"`.  Note the `objProd`
column reads key `'objProd'`. -/
def insertRow (char : PyDict) : Row :=
  ⟨pyStr (dictGet char "shot"),
   pyStr (dictGet char "name"),
   pyStr (dictGet char "objProd"),
   pyStr (dictGet char "shotVer"),
   pyStr (dictGet char "objVer"),
   pyStr (dictGet char "objHighest"),
   pyStr (dictGet char "ood"),
   pyStr (dictGet char "mb")⟩

/-- `sqliteDB.insert`: append-only `INSERT INTO entities VALUES (...)`
with no deduplication. -/
def insert (db : DBState) (char : PyDict) : DBState :=
  ⟨db.schemaCreated, db.rows ++ [insertRow char]⟩

end sqliteDB

/-! ## The crawler (`class ExCrawler`) -/

namespace ExCrawler

/-- `ExCrawler.getObjInfo`: build the dictionary for one `Object` node.
`obj.childNodes[0]` raises `IndexError` on a childless node and
`int(...)` raises `ValueError` on a non-numeric version field; both are
caught by the bare `except`, which logs at info level and returns the
empty dict `{}`. -/
def getObjInfo (obj : XmlNode) : PyDict :=
  match obj.childNodes with
  | [] => []
  | attrs :: _ =>
    let name := getAttribute obj.attrs "name"
    let shotVer := getAttribute attrs "shotVer"
    let objProd := getAttribute attrs "objName"
    let objHighest := getAttribute attrs "objHighest"
    let objVer := getAttribute attrs "objVer"
    let maya_file := getAttribute attrs "mb"
    match pyInt objHighest, pyInt objVer with
    | some hi, some ve =>
      [("name", PyVal.str name),
       ("shotVer", PyVal.str shotVer),
       ("mb", PyVal.str maya_file),
       ("objName", PyVal.str objProd),
       ("objVer", PyVal.str objVer),
       ("objHighest", PyVal.str objHighest),
       ("ood", PyVal.bool (decide (hi > ve)))]
    | _, _ => []

/-- The include portion of `ExCrawler.getShotList`.  `includeShots` is the
raw `--include` string (`""` models the falsy default `[]`): if falsy, the
list becomes the single default shot; otherwise, unless `'all'` occurs in
`includeShots.lower()` (a substring test on the whole string), the string
is split on whitespace and an entry is kept iff it contains some piece as
a substring. -/
def includeStage (entries : List String) (includeShots defaultShot : String) :
    List String :=
  if includeShots ≠ "" then
    if pyInStr "all" (pyLower includeShots) then entries
    else entries.filter (fun s => (pySplit includeShots).any (fun i => pyInStr i s))
  else [defaultShot]

/-- The exclude portion of `ExCrawler.getShotList`: if `excludeShots` is
truthy and its lowering is not exactly `"none"`, entries containing any
whitespace-separated exclude piece as a substring are removed. -/
def excludeStage (shotList : List String) (excludeShots : String) : List String :=
  if excludeShots ≠ "" ∧ pyLower excludeShots ≠ "none" then
    shotList.filter (fun s => !((pySplit excludeShots).any (fun x => pyInStr x s)))
  else shotList

/-- `ExCrawler.getShotList`: `os.listdir` on the show directory (failure is
caught, logged, and yields `[]`), then the include stage, then the exclude
stage. -/
def getShotList (listing : Option (List String))
    (includeShots excludeShots defaultShot : String) : List String :=
  excludeStage (includeStage (listing.getD []) includeShots defaultShot) excludeShots

/-- The crawl's environment: the constructor arguments of `ExCrawler`
together with the filesystem contents it will read.  `listing` is the
result of `os.listdir` on the show directory (`Option.none` = OSError);
`docs shot` is the parsed list of `Object` elements of
`<shot>/<shot>.xml` (`Option.none` = unreadable or malformed document). -/
structure CrawlEnv where
  listing : Option (List String)
  docs : String → Option (List XmlNode)
  shot : String
  includeShots : String
  excludeShots : String
  objects : List String
  verbose : Bool
  useDB : Bool

/-- `ExCrawler.shotXML_objectsGet`, without its database side effect (the
rows it inserts are accounted for in `crawlStep`): parse the shot's
document (`Option.none` on failure, after logging an error), extract every
`Object` node with the thread pool (`pool.map` returns results in input
order), and stamp each resulting dictionary with the shot. -/
def shotXML_objectsGet (env : CrawlEnv) (shot : String) :
    Option (List PyDict) :=
  match env.docs shot with
  | Option.none => Option.none
  | some childList =>
    let objData := childList.map getObjInfo
    some (objData.map (fun obj => dictUpdate obj "shot" (PyVal.str shot)))

/-- `any(f in v for f in filters)` where `v` is a record field: Python's
`in` raises `TypeError` when `v` is not a string (e.g. `None`), which is
`Option.none` here; `any` on an empty generator is `False` without ever
touching `v`. -/
def pyAnyIn (filters : List String) (v : PyVal) : Option Bool :=
  match filters with
  | [] => some false
  | f :: rest =>
    match v with
    | PyVal.str s => if pyInStr f s then some true else pyAnyIn rest (PyVal.str s)
    | _ => Option.none

/-- Short-circuiting Python `or` over possibly-raising operands. -/
def pyOr : Option Bool → Option Bool → Option Bool
  | Option.none, _ => Option.none
  | some true, _ => some true
  | some false, b => b

/-- The filter condition of `findShotsWithObjects`:
`any(obj in ob.get('objName') for obj in self.objects) or
any(obj in ob.get('name') for obj in self.objects)`. -/
def recordPasses (filters : List String) (ob : PyDict) : Option Bool :=
  pyOr (pyAnyIn filters (dictGet ob "objName")) (pyAnyIn filters (dictGet ob "name"))

/-- The list comprehension applying `recordPasses`; an exception raised on
any element aborts the whole comprehension. -/
def filterObjects (filters : List String) : List PyDict → Option (List PyDict)
  | [] => some []
  | ob :: rest =>
    match recordPasses filters ob with
    | Option.none => Option.none
    | some true => (filterObjects filters rest).map (fun l => ob :: l)
    | some false => filterObjects filters rest

/-- `if self.objects:` — the cull is applied only when the filter list is
truthy (non-empty). -/
def postFilter (filters : List String) (objData : List PyDict) :
    Option (List PyDict) :=
  match filters with
  | [] => some objData
  | _ :: _ => filterObjects filters objData

/-- The column-header line printed at the top of every loop iteration. -/
def headerLine : String :=
  "<shotname>\t    <object>\t\t  <source>\t\t\t<version/highest>\t<mayaFile>"

/-- The lines printed for a shot before its objects are fetched: the
header, and (unless verbose) the shot name. -/
def headerLines (env : CrawlEnv) (shot : String) : List String :=
  headerLine :: (if env.verbose then [] else [shot])

/-- `'{0: <w}'.format(s)`: left-justify in a field of `w` spaces. -/
def pad (w : Nat) (s : String) : String :=
  s ++ String.mk (List.replicate (w - s.length) ' ')

/-- `ExCrawler.printItem`: the single report line for one record
(`print printColor, printFont, lineText` with both prefixes empty emits
two joining spaces first). -/
def printItem (item : PyDict) : String :=
  let lineText :=
    "   " ++ pad 8 "" ++ "    " ++ pad 25 (pyStr (dictGet item "name")) ++
    "\tshot_v" ++ pad 4 (pyStr (dictGet item "shotVer")) ++ " " ++
    pad 15 (pyStr (dictGet item "objName")) ++ "\t"
  let lineText :=
    if pyTruthy (dictGet item "ood") then
      lineText ++ "OOD: v" ++ pyStr (dictGet item "objVer") ++ "/v" ++
        pad 3 (pyStr (dictGet item "objHighest")) ++ "\t"
    else
      lineText ++ "current: v" ++ pad 3 (pyStr (dictGet item "objVer")) ++ "\t"
  "  " ++ (lineText ++ pad 15 (pyStr (dictGet item "mb")))

/-- The SQL text `sqliteDB.insert` prints for a record before executing it. -/
def sqlLine (char : PyDict) : String :=
  "INSERT INTO entities VALUES (\"" ++ pyStr (dictGet char "shot") ++ "\", \"" ++
  pyStr (dictGet char "name") ++ "\", \"" ++ pyStr (dictGet char "objProd") ++ "\", \"" ++
  pyStr (dictGet char "shotVer") ++ "\", \"" ++ pyStr (dictGet char "objVer") ++ "\", \"" ++
  pyStr (dictGet char "objHighest") ++ "\", \"" ++ pyStr (dictGet char "ood") ++ "\", \"" ++
  pyStr (dictGet char "mb") ++ "\")"

/-- One iteration of the `for shot in sorted(self.shotList)` loop of
`ExCrawler.findShotsWithObjects`: print the header (and shot name), fetch
and stamp the shot's records (inserting every one of them into the store,
followed by a commit, when `--db` is set), cull them when an object-name
filter is given, `continue` when nothing is left, and otherwise print the
records sorted by their `name` key.  The first component is the lines
printed (`Option.none` = an uncaught exception escaped the iteration);
the second is the store afterwards. -/
def crawlStep (env : CrawlEnv) (shot : String) (db : sqliteDB.DBState) :
    Option (List String) × sqliteDB.DBState :=
  match shotXML_objectsGet env shot with
  | Option.none => (some (headerLines env shot), db)
  | some objData =>
    let db1 := if env.useDB then objData.foldl sqliteDB.insert db else db
    let sqlLines := if env.useDB then objData.map sqlLine else []
    match postFilter env.objects objData with
    | Option.none => (Option.none, db1)
    | some objs =>
      (some (headerLines env shot ++ sqlLines ++
        (List.insertionSort nameLe objs).map printItem), db1)

/-- The whole shot loop: iterations run in sequence; an uncaught exception
aborts the remaining iterations (rows already committed stay in the
store). -/
def crawlRun (env : CrawlEnv) :
    List String → sqliteDB.DBState → Option (List String) × sqliteDB.DBState
  | [], db => (some [], db)
  | s :: rest, db =>
    match crawlStep env s db with
    | (Option.none, db1) => (Option.none, db1)
    | (some lines, db1) =>
      match crawlRun env rest db1 with
      | (Option.none, db2) => (Option.none, db2)
      | (some more, db2) => (some (lines ++ more), db2)

/-- The shot list the constructor computes (`self.shotList`). -/
def shotList (env : CrawlEnv) : List String :=
  getShotList env.listing env.includeShots env.excludeShots env.shot

/-- `sorted(self.shotList)`: the order the loop iterates in. -/
def sortedShots (env : CrawlEnv) : List String :=
  List.insertionSort shotLe (shotList env)

/-- `ExCrawler.findShotsWithObjects`: announce the plan, then loop over the
sorted shot list. -/
def findShotsWithObjects (env : CrawlEnv) (db : sqliteDB.DBState) :
    Option (List String) × sqliteDB.DBState :=
  let r := crawlRun env (sortedShots env) db
  (r.1.map (fun ls =>
    ("Planning to check " ++ toString (shotList env).length ++ " shots...") :: ls),
   r.2)

/-- `ExCrawler.run`, given the database file state (`self.db = sqliteDB()`
connects — creating the schema when the file is absent — before the loop
touches the store). -/
def run (env : CrawlEnv) (file : Option sqliteDB.DBState) :
    Option (List String) × sqliteDB.DBState :=
  findShotsWithObjects env (sqliteDB.dbConnect file)

/-- The rows one shot's iteration inserts into the store. -/
def shotInsertedRows (env : CrawlEnv) (shot : String) : List sqliteDB.Row :=
  match shotXML_objectsGet env shot with
  | Option.none => []
  | some objData => if env.useDB then objData.map sqliteDB.insertRow else []

end ExCrawler

/-! ## Concrete fixtures used by witnesses and counterexamples -/

/-- A well-formed `Object` node (the spec's worked example). -/
def c1Node : XmlNode :=
  ⟨[("name", "charA")],
   [[("shotVer", "3"), ("objName", "CharRig"), ("objHighest", "5"),
     ("objVer", "4"), ("mb", "/assets/charA.mb")]]⟩

/-- An `Object` node whose `objVer` text is not numeric. -/
def c3BadNode : XmlNode :=
  ⟨[("name", "charB")],
   [[("shotVer", "3"), ("objName", "CharRig"), ("objHighest", "5"),
     ("objVer", "x4"), ("mb", "/assets/charB.mb")]]⟩

/-- A crawl over one shot `s1` whose document holds only `c3BadNode`,
with persistence on and no object-name filter. -/
def c3Env : ExCrawler.CrawlEnv :=
  ⟨some ["s1"], (fun s => if s = "s1" then some [c3BadNode] else Option.none),
   "shot001", "all", "", [], false, true⟩

/-- A crawl over one shot `s1` whose document has zero `Object` nodes. -/
def c4Env : ExCrawler.CrawlEnv :=
  ⟨some ["s1"], (fun s => if s = "s1" then some [] else Option.none),
   "shot001", "all", "", [], false, false⟩

/-- The attribute-bearing child of `c5Node`. -/
def c5Attrs : List (String × String) :=
  [("shotVer", "3"), ("objName", "CharRig"), ("objHighest", "5"),
   ("objVer", "4"), ("mb", "/assets/charA.mb")]

/-- A well-formed `Object` node for the persistence fixture. -/
def c5Node : XmlNode := ⟨[("name", "charA")], [c5Attrs]⟩

/-- A crawl over one shot `s1` with one well-formed object and
persistence enabled. -/
def c5Env : ExCrawler.CrawlEnv :=
  ⟨some ["s1"], (fun s => if s = "s1" then some [c5Node] else Option.none),
   "shot001", "all", "", [], false, true⟩

/-- A crawl whose every document is unreadable. -/
def c6Env : ExCrawler.CrawlEnv :=
  ⟨some ["s1"], (fun _ => Option.none), "shot001", "all", "", [], false, false⟩

/-- A well-formed record dictionary, as `getObjInfo` would emit. -/
def c7Rec : PyDict :=
  [("objName", PyVal.str "CharRig"), ("name", PyVal.str "charA")]

/-- An environment with an empty shot universe (the outer-order and
record-order facts of C9 are about the sorts themselves). -/
def c9Env : ExCrawler.CrawlEnv :=
  ⟨Option.none, (fun _ => Option.none), "", "", "", [], false, false⟩

/-- A record named `b`. -/
def c9RecB : PyDict := [("name", PyVal.str "b")]

/-- A record named `a`. -/
def c9RecA : PyDict := [("name", PyVal.str "a")]

/-- The attribute-bearing child of `c10Node`. -/
def c10Attrs : List (String × String) :=
  [("shotVer", "3"), ("objName", "CharRig"), ("objHighest", "5"),
   ("objVer", "4"), ("mb", "/assets/charA.mb")]

/-- A well-formed `Object` node for the persisted-column fixture. -/
def c10Node : XmlNode := ⟨[("name", "charA")], [c10Attrs]⟩

/-! ## The include selection as the specification words it -/

/-- Modelled from the claim's words, for comparison with
`ExCrawler.includeStage`: the include-pattern set is the whitespace-split
pattern list; when it is empty the result is the single default shot;
filtering is disabled exactly when the set contains the sentinel pattern
`"all"` (each whole pattern compared case-insensitively); otherwise an
entry passes iff it contains some pattern as a substring. -/
def includeSelectionClaim (entries : List String) (patterns : List String)
    (defaultShot : String) : List String :=
  if patterns = [] then [defaultShot]
  else if (patterns.map pyLower).contains "all" then entries
  else entries.filter (fun s => patterns.any (fun p => pyInStr p s))

/-! ## Helper lemmas -/

theorem dictGet_head (k : String) (v : PyVal) (d : PyDict) :
    dictGet ((k, v) :: d) k = v := by
  simp [dictGet, List.lookup]

theorem dictGet_ne (k j : String) (v : PyVal) (d : PyDict) (h : (k == j) = false) :
    dictGet ((j, v) :: d) k = dictGet d k := by
  simp [dictGet, List.lookup, h]

theorem foldl_insert_rows (objData : List PyDict) :
    ∀ db : sqliteDB.DBState,
      objData.foldl sqliteDB.insert db =
        ⟨db.schemaCreated, db.rows ++ objData.map sqliteDB.insertRow⟩ := by
  induction objData with
  | nil => intro db; cases db; simp
  | cons a t ih =>
    intro db
    simp only [List.foldl_cons, List.map_cons, ih, sqliteDB.insert, List.append_assoc,
      List.cons_append, List.nil_append]

theorem crawlStep_snd (env : ExCrawler.CrawlEnv) (s : String) (db : sqliteDB.DBState) :
    (ExCrawler.crawlStep env s db).2 =
      ⟨db.schemaCreated, db.rows ++ ExCrawler.shotInsertedRows env s⟩ := by
  cases hget : ExCrawler.shotXML_objectsGet env s with
  | none =>
    cases db
    simp [ExCrawler.crawlStep, hget, ExCrawler.shotInsertedRows]
  | some objData =>
    cases hdb : env.useDB with
    | false =>
      cases db
      cases hpf : ExCrawler.postFilter env.objects objData <;>
        simp [ExCrawler.crawlStep, hget, hdb, hpf, ExCrawler.shotInsertedRows]
    | true =>
      cases hpf : ExCrawler.postFilter env.objects objData <;>
        simp [ExCrawler.crawlStep, hget, hdb, hpf, ExCrawler.shotInsertedRows,
          foldl_insert_rows]

theorem crawlStep_fst_congr (env : ExCrawler.CrawlEnv) (s : String)
    (db db' : sqliteDB.DBState) :
    (ExCrawler.crawlStep env s db).1 = (ExCrawler.crawlStep env s db').1 := by
  cases hget : ExCrawler.shotXML_objectsGet env s with
  | none => simp [ExCrawler.crawlStep, hget]
  | some objData =>
    cases hpf : ExCrawler.postFilter env.objects objData <;>
      simp [ExCrawler.crawlStep, hget, hpf]

theorem crawlRun_rows (env : ExCrawler.CrawlEnv) :
    ∀ (shots : List String) (db : sqliteDB.DBState),
      (ExCrawler.crawlRun env shots db).2.rows =
        db.rows ++ (ExCrawler.crawlRun env shots ⟨true, []⟩).2.rows := by
  intro shots
  induction shots with
  | nil => intro db; simp [ExCrawler.crawlRun]
  | cons s rest ih =>
    intro db
    have hbase := crawlStep_snd env s (⟨true, []⟩ : sqliteDB.DBState)
    have hdb := crawlStep_snd env s db
    have hfst := crawlStep_fst_congr env s db (⟨true, []⟩ : sqliteDB.DBState)
    rcases hstep : ExCrawler.crawlStep env s db with ⟨o, db1⟩
    rcases hstep0 : ExCrawler.crawlStep env s (⟨true, []⟩ : sqliteDB.DBState) with ⟨o0, db10⟩
    rw [hstep] at hdb hfst
    rw [hstep0] at hbase hfst
    simp only at hdb hbase hfst
    subst hdb hbase
    cases o with
    | none =>
      cases o0 with
      | none => simp [ExCrawler.crawlRun, hstep, hstep0]
      | some l0 => exact absurd hfst (by simp)
    | some lines =>
      cases o0 with
      | none => exact absurd hfst (by simp)
      | some l0 =>
        have hrec1 := ih (⟨db.schemaCreated, db.rows ++ ExCrawler.shotInsertedRows env s⟩ :
          sqliteDB.DBState)
        have hrec0 := ih (⟨true, [] ++ ExCrawler.shotInsertedRows env s⟩ : sqliteDB.DBState)
        simp only [ExCrawler.crawlRun, hstep, hstep0]
        rcases h1 : ExCrawler.crawlRun env rest
            (⟨db.schemaCreated, db.rows ++ ExCrawler.shotInsertedRows env s⟩ :
              sqliteDB.DBState) with ⟨o1, db2⟩
        rcases h0 : ExCrawler.crawlRun env rest
            (⟨true, [] ++ ExCrawler.shotInsertedRows env s⟩ : sqliteDB.DBState) with ⟨o2, db20⟩
        rw [h1] at hrec1
        rw [h0] at hrec0
        simp only at hrec1 hrec0
        cases o1 <;> cases o2 <;>
          simp only [hrec1, hrec0, List.nil_append, List.append_assoc]

theorem pyAnyIn_str (filters : List String) (s : String) :
    ExCrawler.pyAnyIn filters (PyVal.str s) =
      some (filters.any (fun f => pyInStr f s)) := by
  induction filters with
  | nil => simp [ExCrawler.pyAnyIn]
  | cons f rest ih =>
    cases h : pyInStr f s <;> simp [ExCrawler.pyAnyIn, h, ih]

theorem any_or_split (l : List String) (p q : String → Bool) :
    l.any (fun f => p f || q f) = (l.any p || l.any q) := by
  induction l with
  | nil => simp
  | cons f rest ih =>
    simp only [List.any_cons, ih]
    cases p f <;> cases q f <;> cases rest.any p <;> cases rest.any q <;> rfl

theorem recordPasses_str (filters : List String) (ob : PyDict) (so sn : String)
    (ho : dictGet ob "objName" = PyVal.str so) (hn : dictGet ob "name" = PyVal.str sn) :
    ExCrawler.recordPasses filters ob =
      some (filters.any (fun f => pyInStr f so || pyInStr f sn)) := by
  rw [ExCrawler.recordPasses, ho, hn, pyAnyIn_str, pyAnyIn_str, any_or_split]
  cases filters.any (fun f => pyInStr f so) <;> simp [ExCrawler.pyOr]

theorem eq_of_perm_of_sorted_nodup_names {l₁ l₂ : List PyDict}
    (hp : l₁.Perm l₂) (hs₁ : l₁.Sorted nameLe) (hs₂ : l₂.Sorted nameLe)
    (hstr : ∀ d ∈ l₁, ∃ s, dictGet d "name" = PyVal.str s)
    (hnd : (l₁.map (fun d => dictGet d "name")).Nodup) :
    l₁ = l₂ := by
  induction l₁ generalizing l₂ with
  | nil => exact hp.nil_eq
  | cons a t ih =>
    cases l₂ with
    | nil => exact absurd hp (by simp)
    | cons b u =>
      have hab : a = b := by
        by_contra hne
        have hb1 : b ∈ t := by
          have hmem : b ∈ a :: t := hp.symm.subset (List.mem_cons_self b u)
          rcases List.mem_cons.mp hmem with h | h
          · exact absurd h.symm hne
          · exact h
        have ha2 : a ∈ u := by
          have hmem : a ∈ b :: u := hp.subset (List.mem_cons_self a t)
          rcases List.mem_cons.mp hmem with h | h
          · exact absurd h hne
          · exact h
        have h₁ : nameLe a b := (List.sorted_cons.mp hs₁).1 b hb1
        have h₂ : nameLe b a := (List.sorted_cons.mp hs₂).1 a ha2
        obtain ⟨sa, hsa⟩ := hstr a (List.mem_cons_self a t)
        obtain ⟨sb, hsb⟩ := hstr b (List.mem_cons_of_mem a hb1)
        rw [nameLe, pyKeyLe, hsa, hsb] at h₁ h₂
        have hkey : dictGet a "name" = dictGet b "name" := by
          rw [hsa, hsb, pyKeyLeB_antisymm_str h₁ h₂]
        have hin : dictGet b "name" ∈ t.map (fun d => dictGet d "name") :=
          List.mem_map_of_mem (fun d => dictGet d "name") hb1
        rw [← hkey] at hin
        exact (List.nodup_cons.mp hnd).1 hin
      subst hab
      have hpt : t.Perm u := hp.cons_inv
      have ht := ih hpt hs₁.of_cons hs₂.of_cons
        (fun d hd => hstr d (List.mem_cons_of_mem a hd))
        (List.nodup_cons.mp hnd).2
      rw [ht]

theorem filterObjects_str (filters : List String) :
    ∀ objs : List PyDict,
      (∀ d ∈ objs, (∃ s, dictGet d "objName" = PyVal.str s) ∧
                   (∃ t, dictGet d "name" = PyVal.str t)) →
      ExCrawler.filterObjects filters objs =
        some (objs.filter (fun d => filters.any (fun f =>
          pyInStr f (pyStr (dictGet d "objName")) ||
          pyInStr f (pyStr (dictGet d "name"))))) := by
  intro objs
  induction objs with
  | nil => intro _; simp [ExCrawler.filterObjects]
  | cons ob t ih =>
    intro h
    obtain ⟨⟨so, hso⟩, ⟨sn, hsn⟩⟩ := h ob (List.mem_cons_self ob t)
    have hrp := recordPasses_str filters ob so sn hso hsn
    have ht := ih (fun d hd => h d (List.mem_cons_of_mem ob hd))
    cases hb : filters.any (fun f => pyInStr f so || pyInStr f sn) with
    | false =>
      rw [hb] at hrp
      simp only [ExCrawler.filterObjects, hrp, ht, List.filter_cons, hso, hsn, pyStr, hb]
      simp
    | true =>
      rw [hb] at hrp
      simp only [ExCrawler.filterObjects, hrp, ht, List.filter_cons, hso, hsn, pyStr, hb,
        Option.map_some]
      simp

/-! ## The claims -/

/-- C1: for every object node with an attribute-bearing first child whose
version fields parse as integers, the extracted record's `ood` flag is
true iff `objHighest > objVer` under integer comparison; and a
non-numeric version field is a hard extraction failure for the object —
`getObjInfo` yields the empty dictionary, not a record with defaulted
version values. -/
theorem claim1_ood_iff_highest_gt_version (obj : XmlNode)
    (attrs : List (String × String)) (rest : List (List (String × String)))
    (hc : obj.childNodes = attrs :: rest) :
    (∀ hi ve : Int,
      pyInt (getAttribute attrs "objHighest") = some hi →
      pyInt (getAttribute attrs "objVer") = some ve →
      dictGet (ExCrawler.getObjInfo obj) "ood" = PyVal.bool (decide (hi > ve)))
    ∧ ((pyInt (getAttribute attrs "objHighest") = Option.none ∨
        pyInt (getAttribute attrs "objVer") = Option.none) →
       ExCrawler.getObjInfo obj = []) := by
  obtain ⟨oattrs, oc⟩ := obj
  dsimp only at hc
  subst hc
  constructor
  · intro hi ve h1 h2
    simp only [ExCrawler.getObjInfo]
    rw [h1, h2]
    simp [dictGet, List.lookup]
  · intro h
    rcases h with h | h
    · simp only [ExCrawler.getObjInfo]
      rw [h]
    · cases hfirst : pyInt (getAttribute attrs "objHighest") with
      | none => simp only [ExCrawler.getObjInfo]; rw [hfirst]
      | some hi => simp only [ExCrawler.getObjInfo]; rw [hfirst, h]

/-- Witness for C1 at the spec's worked example (`objHighest` 5,
`objVer` 4, so the record is out of date). -/
theorem claim1_witness :
    dictGet (ExCrawler.getObjInfo c1Node) "ood" = PyVal.bool true := by
  have h := (claim1_ood_iff_highest_gt_version c1Node
    [("shotVer", "3"), ("objName", "CharRig"), ("objHighest", "5"),
     ("objVer", "4"), ("mb", "/assets/charA.mb")] [] rfl).1 5 4
    (by decide) (by decide)
  exact h.trans (by decide)

/-- Counterexample to C2 as stated: with the single include pattern
`"tally"`, the pattern set does not contain the sentinel `"all"`, so the
claim requires substring filtering by `"tally"` (which would reject
`"shotA"`); but the code tests `'all' in includeShots.lower()` on the
whole un-split string, finds `"all"` inside `"tally"`, and skips include
filtering altogether. -/
theorem claim2_counterexample :
    ExCrawler.includeStage ["shotA"] "tally" "shot001" = ["shotA"]
    ∧ includeSelectionClaim ["shotA"] (pySplit "tally") "shot001" = []
    ∧ ExCrawler.includeStage ["shotA"] "tally" "shot001" ≠
        includeSelectionClaim ["shotA"] (pySplit "tally") "shot001" := by
  refine ⟨by decide, by decide, by decide⟩

/-- C2 (amended): when the include string is empty the include stage
yields exactly the single default shot; when `"all"` occurs as a
case-insensitive substring of the whole include string (so also inside a
longer pattern such as `"tally"`) no include filtering is applied;
otherwise an entry passes iff it contains at least one whitespace-split
include pattern as a plain substring. -/
theorem claim2_include_selection (entries : List String) (inc d : String) :
    ExCrawler.includeStage entries "" d = [d]
    ∧ (inc ≠ "" → pyInStr "all" (pyLower inc) = true →
        ExCrawler.includeStage entries inc d = entries)
    ∧ (inc ≠ "" → pyInStr "all" (pyLower inc) = false →
        ExCrawler.includeStage entries inc d =
          entries.filter (fun s => (pySplit inc).any (fun i => pyInStr i s))) := by
  refine ⟨by simp [ExCrawler.includeStage], fun h1 h2 => ?_, fun h1 h2 => ?_⟩ <;>
    simp [ExCrawler.includeStage, h1, h2]

/-- Witness for C2 (amended) at the sentinel `"ALL"`: filtering disabled
case-insensitively. -/
theorem claim2_witness :
    ExCrawler.includeStage ["shotA", "system_test"] "ALL" "shot001" =
      ["shotA", "system_test"] :=
  (claim2_include_selection ["shotA", "system_test"] "ALL" "shot001").2.1
    (by decide) (by decide)

/-- C3 is a code bug: `getObjInfo` does return the empty dict on a
non-numeric version field and never raises — but the caller
`shotXML_objectsGet` does not drop the empty result.  At a one-shot crawl
whose only object has `objVer="x4"`, the failed record is stamped with
the shot, printed as a report line, and persisted as a row whose every
column except `shot` is the rendered `None`. -/
theorem claim3_failed_record_propagates :
    ExCrawler.getObjInfo c3BadNode = []
    ∧ (ExCrawler.run c3Env Option.none).2.rows =
        [sqliteDB.insertRow [("shot", PyVal.str "s1")]]
    ∧ (sqliteDB.insertRow [("shot", PyVal.str "s1")]).name = "None"
    ∧ (sqliteDB.insertRow [("shot", PyVal.str "s1")]).objProd = "None"
    ∧ (ExCrawler.run c3Env Option.none).1 =
        some ["Planning to check 1 shots...", ExCrawler.headerLine, "s1",
          ExCrawler.sqlLine [("shot", PyVal.str "s1")],
          ExCrawler.printItem [("shot", PyVal.str "s1")]] := by
  refine ⟨by decide, by decide, by decide, by decide, by decide⟩

/-- Counterexample to C4 as stated: a shot whose document has zero
`Object` nodes contributes zero records, yet its report section is not
empty — the column-header line and (non-verbose) the shot name are
printed before the empty check, so the run's output is not just the plan
line. -/
theorem claim4_counterexample :
    ExCrawler.shotXML_objectsGet c4Env "s1" = some []
    ∧ (ExCrawler.crawlStep c4Env "s1" ⟨true, []⟩).1 =
        some [ExCrawler.headerLine, "s1"]
    ∧ some [ExCrawler.headerLine, "s1"] ≠ some ([] : List String)
    ∧ (ExCrawler.run c4Env Option.none).1 =
        some ["Planning to check 1 shots...", ExCrawler.headerLine, "s1"] := by
  refine ⟨by decide, by decide, by decide, by decide⟩

/-- C4 (amended): a shot whose post-filter record set is empty produces
no record lines (`continue` skips the print loop), but its section is not
wholly absent: the header line, the shot name (when not verbose) and,
with persistence on, the echoed SQL of the pre-filter inserts are still
printed. -/
theorem claim4_zero_record_shot (env : ExCrawler.CrawlEnv) (s : String)
    (db : sqliteDB.DBState) (objData : List PyDict)
    (h1 : ExCrawler.shotXML_objectsGet env s = some objData)
    (h2 : ExCrawler.postFilter env.objects objData = some []) :
    (ExCrawler.crawlStep env s db).1 =
      some (ExCrawler.headerLines env s ++
        (if env.useDB then objData.map ExCrawler.sqlLine else [])) := by
  simp [ExCrawler.crawlStep, h1, h2]

/-- Witness for C4 (amended) at the zero-object document fixture. -/
theorem claim4_witness :
    (ExCrawler.crawlStep c4Env "s1" ⟨true, []⟩).1 =
      some [ExCrawler.headerLine, "s1"] :=
  (claim4_zero_record_shot c4Env "s1" ⟨true, []⟩ [] (by decide) (by decide)).trans
    (by decide)

/-- C5: with persistence enabled, connecting creates the fixed schema only
when the file is absent and otherwise reuses the store untouched; and
because `sqliteDB.insert` never deduplicates, running the same crawl a
second time against the store left by the first adds exactly the same
number of rows again (so from an empty store the row count exactly
doubles). -/
theorem claim5_persistence_doubles (env : ExCrawler.CrawlEnv)
    (file : Option sqliteDB.DBState) (_hdb : env.useDB = true) :
    sqliteDB.dbConnect Option.none = (⟨true, []⟩ : sqliteDB.DBState)
    ∧ (∀ db : sqliteDB.DBState, sqliteDB.dbConnect (some db) = db)
    ∧ ((ExCrawler.run env (some (ExCrawler.run env file).2)).2.rows.length
        + (sqliteDB.dbConnect file).rows.length
        = 2 * (ExCrawler.run env file).2.rows.length) := by
  refine ⟨rfl, fun db => rfl, ?_⟩
  have e1 : (ExCrawler.run env file).2 =
      (ExCrawler.crawlRun env (ExCrawler.sortedShots env) (sqliteDB.dbConnect file)).2 := rfl
  have e2 : (ExCrawler.run env (some (ExCrawler.run env file).2)).2 =
      (ExCrawler.crawlRun env (ExCrawler.sortedShots env) (ExCrawler.run env file).2).2 := rfl
  have h1 := crawlRun_rows env (ExCrawler.sortedShots env) (sqliteDB.dbConnect file)
  have h2 := crawlRun_rows env (ExCrawler.sortedShots env) (ExCrawler.run env file).2
  rw [e2, h2, e1, h1]
  simp only [List.length_append]
  omega

/-- Witness for C5: crawling the one-good-object fixture twice from a
fresh store leaves two identical rows (the equation instantiates to
`2 + 0 = 2 * 1`). -/
theorem claim5_witness :
    (ExCrawler.run c5Env (some (ExCrawler.run c5Env Option.none).2)).2.rows.length
      + (sqliteDB.dbConnect Option.none).rows.length
      = 2 * (ExCrawler.run c5Env Option.none).2.rows.length :=
  (claim5_persistence_doubles c5Env Option.none rfl).2.2

/-- C6: a shot whose document is unreadable or malformed is caught inside
`shotXML_objectsGet` (logged at error level), the shot contributes zero
records — its report section is just the header lines — the store is
untouched, and the loop goes on to process the remaining shots
unchanged. -/
theorem claim6_parse_failure_non_fatal (env : ExCrawler.CrawlEnv) (s : String)
    (db : sqliteDB.DBState) (rest : List String)
    (h : env.docs s = Option.none) :
    ExCrawler.shotXML_objectsGet env s = Option.none
    ∧ ExCrawler.crawlStep env s db = (some (ExCrawler.headerLines env s), db)
    ∧ ExCrawler.crawlRun env (s :: rest) db =
        ((ExCrawler.crawlRun env rest db).1.map
          (fun more => ExCrawler.headerLines env s ++ more),
         (ExCrawler.crawlRun env rest db).2) := by
  have hx : ExCrawler.shotXML_objectsGet env s = Option.none := by
    simp [ExCrawler.shotXML_objectsGet, h]
  have hstep : ExCrawler.crawlStep env s db = (some (ExCrawler.headerLines env s), db) := by
    simp [ExCrawler.crawlStep, hx]
  refine ⟨hx, hstep, ?_⟩
  simp only [ExCrawler.crawlRun, hstep]
  rcases hr : ExCrawler.crawlRun env rest db with ⟨o, db2⟩
  cases o <;> simp

/-- Witness for C6 at the all-documents-unreadable fixture. -/
theorem claim6_witness :
    ExCrawler.crawlStep c6Env "s1" (⟨true, []⟩ : sqliteDB.DBState) =
      (some (ExCrawler.headerLines c6Env "s1"), (⟨true, []⟩ : sqliteDB.DBState)) :=
  (claim6_parse_failure_non_fatal c6Env "s1" (⟨true, []⟩ : sqliteDB.DBState) [] rfl).2.1

/-- C7: with a non-empty object-name filter list (over records whose
`objName` and `name` fields are strings, as every extracted record's
are), a record is retained iff at least one filter string is a substring
of its `objName` or of its `name` — a logical OR across both fields and
all filters; with an empty filter list every record is retained. -/
theorem claim7_object_name_filter (filters : List String) (objs : List PyDict)
    (hne : filters ≠ [])
    (hstr : ∀ d ∈ objs, (∃ s, dictGet d "objName" = PyVal.str s) ∧
                        (∃ t, dictGet d "name" = PyVal.str t)) :
    ExCrawler.postFilter filters objs =
      some (objs.filter (fun d => filters.any (fun f =>
        pyInStr f (pyStr (dictGet d "objName")) ||
        pyInStr f (pyStr (dictGet d "name")))))
    ∧ ExCrawler.postFilter [] objs = some objs := by
  constructor
  · cases filters with
    | nil => exact absurd rfl hne
    | cons f fs => exact filterObjects_str (f :: fs) objs hstr
  · rfl

/-- Witness for C7: the filter `"Char"` matches `CharRig` and retains the
record. -/
theorem claim7_witness :
    ExCrawler.postFilter ["Char"] [c7Rec] = some [c7Rec] :=
  ((claim7_object_name_filter ["Char"] [c7Rec] (by decide)
    (fun d hd => by
      rw [List.mem_singleton] at hd
      subst hd
      exact ⟨⟨"CharRig", rfl⟩, ⟨"charA", rfl⟩⟩)).1).trans (by decide)

/-- C8: whenever the exclude string is truthy and is not (case-
insensitively) exactly the sentinel `"none"`, the shot list is the
include-stage result with every entry containing any whitespace-split
exclude pattern as a substring removed — exclusion runs strictly after
include selection (also after the empty-include single-default-shot
case); and the spec's worked example holds: include `"ALL"`, exclude
`"system"` over `[shotA, shotB, system_test]` yields `[shotA, shotB]`. -/
theorem claim8_exclude_after_include (listing : Option (List String))
    (inc exc d : String) (h1 : exc ≠ "") (h2 : pyLower exc ≠ "none") :
    ExCrawler.getShotList listing inc exc d =
      (ExCrawler.includeStage (listing.getD []) inc d).filter
        (fun s => !((pySplit exc).any (fun x => pyInStr x s)))
    ∧ ExCrawler.getShotList (some ["shotA", "shotB", "system_test"])
        "ALL" "system" "shot001" = ["shotA", "shotB"] := by
  constructor
  · simp [ExCrawler.getShotList, ExCrawler.excludeStage, h1, h2]
  · decide

/-- Witness for C8 at the spec's worked example. -/
theorem claim8_witness :
    ExCrawler.getShotList (some ["shotA", "shotB", "system_test"])
      "ALL" "system" "shot001" = ["shotA", "shotB"] :=
  (claim8_exclude_after_include (some ["shotA", "shotB", "system_test"])
    "ALL" "system" "shot001" (by decide) (by decide)).2

/-- C9: the outer loop iterates `sorted(self.shotList)`, which is sorted
ascending (byte-wise string comparison) and a permutation of the
discovered shot list; within a shot the printed record sequence is
`sorted(objects, key=name)`, which is sorted by the `name` key and a
permutation of the post-filter records; and for records with pairwise
distinct string names the sorted sequence is the same for any
permutation of the extraction results, so it does not depend on the
completion order of the concurrent per-object extraction. -/
theorem claim9_deterministic_order (env : ExCrawler.CrawlEnv)
    (l m : List PyDict) (hp : l.Perm m)
    (hstr : ∀ d ∈ l, ∃ s, dictGet d "name" = PyVal.str s)
    (hnd : (l.map (fun d => dictGet d "name")).Nodup) :
    List.Sorted shotLe (ExCrawler.sortedShots env)
    ∧ (ExCrawler.sortedShots env).Perm (ExCrawler.shotList env)
    ∧ List.Sorted nameLe (List.insertionSort nameLe l)
    ∧ (List.insertionSort nameLe l).Perm l
    ∧ List.insertionSort nameLe l = List.insertionSort nameLe m := by
  refine ⟨List.sorted_insertionSort shotLe _, List.perm_insertionSort shotLe _,
    List.sorted_insertionSort nameLe l, List.perm_insertionSort nameLe l, ?_⟩
  apply eq_of_perm_of_sorted_nodup_names
  · exact (List.perm_insertionSort nameLe l).trans
      (hp.trans (List.perm_insertionSort nameLe m).symm)
  · exact List.sorted_insertionSort nameLe l
  · exact List.sorted_insertionSort nameLe m
  · intro d hd
    exact hstr d ((List.perm_insertionSort nameLe l).subset hd)
  · exact (((List.perm_insertionSort nameLe l).map
      (fun d => dictGet d "name")).nodup_iff).mpr hnd

/-- Witness for C9: two distinctly named records sort identically from
either arrival order. -/
theorem claim9_witness :
    List.insertionSort nameLe [c9RecB, c9RecA] =
      List.insertionSort nameLe [c9RecA, c9RecB] :=
  (claim9_deterministic_order c9Env [c9RecB, c9RecA] [c9RecA, c9RecB]
    (by decide)
    (fun d hd => by
      rcases List.mem_cons.mp hd with h | h
      · subst h; exact ⟨"b", rfl⟩
      · rw [List.mem_singleton] at h; subst h; exact ⟨"a", rfl⟩)
    (by decide)).2.2.2.2

/-- C10: extraction stores the published object name under the key
`objName` and never sets a key `objProd`; `sqliteDB.insert` reads
`char.get('objProd')`, so the `objProd` column of every persisted row is
the rendered `None` placeholder, and the record's published object name
is never persisted in that column. -/
theorem claim10_objProd_column_is_none (obj : XmlNode)
    (attrs : List (String × String)) (rest : List (List (String × String)))
    (s : String) (hi ve : Int)
    (hc : obj.childNodes = attrs :: rest)
    (hhi : pyInt (getAttribute attrs "objHighest") = some hi)
    (hve : pyInt (getAttribute attrs "objVer") = some ve) :
    dictGet (ExCrawler.getObjInfo obj) "objProd" = PyVal.none
    ∧ dictGet (ExCrawler.getObjInfo obj) "objName" =
        PyVal.str (getAttribute attrs "objName")
    ∧ (sqliteDB.insertRow (dictUpdate (ExCrawler.getObjInfo obj) "shot"
        (PyVal.str s))).objProd = pyStr PyVal.none := by
  obtain ⟨oattrs, oc⟩ := obj
  dsimp only at hc
  subst hc
  refine ⟨?_, ?_, ?_⟩ <;>
    · simp only [ExCrawler.getObjInfo]
      rw [hhi, hve]
      simp [dictGet, dictUpdate, sqliteDB.insertRow, List.lookup, pyStr]

/-- Witness for C10: at the worked example the persisted `objProd` column
is `"None"` even though the record's published name is `CharRig`. -/
theorem claim10_witness :
    (sqliteDB.insertRow (dictUpdate (ExCrawler.getObjInfo c10Node) "shot"
      (PyVal.str "shotA"))).objProd = "None" :=
  ((claim10_objProd_column_is_none c10Node c10Attrs [] "shotA" 5 4 rfl
    (by decide) (by decide)).2.2).trans (by decide)
